import Mathlib

/-!
Shallow embedding of the StatefulSet builder of the RabbitMQ cluster operator
(`internal/resource/statefulset.go`) together with the parts of its data model
that the builder manipulates, and proofs about its Build/Update contract and
the pre-stop termination safety loop embedded in the pod template.

Maps (Kubernetes `map[string]string`) are embedded as association lists of
string pairs; machine integers (`int32`, `int64`) are embedded as `Int`
(no arithmetic near overflow occurs anywhere in the embedded code); resource
quantities are embedded by their canonical numeric value in milli-units.
-/

namespace ClusterOperator

/-- Association-list embedding of `map[string]string`. -/
abbrev StrMap : Type := List (String × String)

/-- Whether the map has an entry for key `k`. -/
def containsKey (m : StrMap) (k : String) : Bool :=
  m.any (fun kv => kv.1 == k)

/-- Value stored at key `k`, if any (first entry wins). -/
def getVal (m : StrMap) (k : String) : Option String :=
  (m.find? (fun kv => kv.1 == k)).map (fun kv => kv.2)

/-- Canonical numeric value of a `k8sresource.Quantity`, in milli-units. -/
abbrev Quantity : Type := Int

/-- Model of the external `k8sresource.ParseQuantity`, exact on the two
string constants the embedded source passes to it (`initContainerCPU` and
`initContainerMemory`); every other input is outside the embedded code's
reach and is mapped to the library's failure case. -/
def ParseQuantity (s : String) : Except String Quantity :=
  if s = "100m" then .ok (100 : Int)
  else if s = "500Mi" then .ok ((500 * 1048576 * 1000 : Int))
  else .error ("quantities must match the regular expression: " ++ s)

/-- A `metav1.OwnerReference`, restricted to the fields the embedded code
reads or writes: the owner's name and the controller flag. -/
structure OwnerRef where
  name : String
  controller : Bool
deriving DecidableEq

instance {e a : Type} [DecidableEq e] [DecidableEq a] : DecidableEq (Except e a) := fun x y =>
  match x, y with
  | .ok v, .ok v' =>
    if h : v = v' then .isTrue (by rw [h]) else .isFalse (by intro hc; cases hc; exact h rfl)
  | .error m, .error m' =>
    if h : m = m' then .isTrue (by rw [h]) else .isFalse (by intro hc; cases hc; exact h rfl)
  | .ok _, .error _ => .isFalse (by intro hc; cases hc)
  | .error _, .ok _ => .isFalse (by intro hc; cases hc)

/-- Model of the external `controllerutil.SetControllerReference`: fails if a
different controller already owns the object, otherwise ensures exactly one
controller reference to `owner` is present. -/
def SetControllerReference (owner : String) (refs : List OwnerRef) :
    Except String (List OwnerRef) :=
  match refs.find? (fun r => r.controller) with
  | some r => if r.name = owner then .ok refs else .error "object is already owned by another controller"
  | none => .ok (refs ++ [⟨owner, true⟩])

namespace metadata

/-- Modelled from the spec: the pod-selector labels are computed
deterministically from the instance name (the CLI under `src/unnamed`
selects this instance's pods with `app.kubernetes.io/name=<instance>`). -/
def LabelSelector (name : String) : StrMap :=
  [("app.kubernetes.io/name", name)]

/-- Modelled from the spec: operator-managed labels stamped on every child
object, computed deterministically from the instance name. -/
def Label (name : String) : StrMap :=
  [("app.kubernetes.io/name", name)]

/-- Modelled from the spec (§4.4 Metadata Reconciler): produces the merged
map in which every key of `desired` (the controller's currently computed
values) takes its desired value and any other existing key is preserved
untouched. -/
def ReconcileAnnotations (existing desired : StrMap) : StrMap :=
  (existing.filter (fun kv => !(containsKey desired kv.1))) ++ desired

/-- Modelled from the spec: merges the operator-managed labels with the
user-supplied ones without data loss; operator-managed keys always take the
computed value. -/
def GetLabels (name : String) (userLabels : StrMap) : StrMap :=
  (userLabels.filter (fun kv => !(containsKey (Label name) kv.1))) ++ Label name

end metadata

/-- `corev1.ResourceList` (`map[ResourceName]Quantity`), as an association
list from resource names to quantities. -/
abbrev ResourceList : Type := List (String × Quantity)

/-- `corev1.ResourceRequirements`. -/
structure ResourceRequirements where
  limits : ResourceList
  requests : ResourceList
deriving DecidableEq

/-- `ResourceList.Memory()`: the quantity stored under `memory`, or the zero
quantity when absent (the Go accessor never returns nil). -/
def memoryOf (rl : ResourceList) : Quantity :=
  ((rl.find? (fun kv => kv.1 == "memory")).map (fun kv => kv.2)).getD 0

/-- `metav1.ObjectMeta`, restricted to the fields the embedded code touches
plus representative orchestration-assigned fields (`uid`, `resourceVersion`,
`creationTimestamp`) that lie outside the builder's mutable set. -/
structure ObjectMeta where
  name : String
  ns : String
  labels : StrMap
  anns : StrMap
  ownerRefs : List OwnerRef
  uid : String
  resourceVersion : String
  creationTimestamp : String
deriving DecidableEq

/-- The empty (Go zero-value) object metadata. -/
def zeroMeta : ObjectMeta :=
  { name := "", ns := "", labels := [], anns := [], ownerRefs := [],
    uid := "", resourceVersion := "", creationTimestamp := "" }

/-- `metav1.LabelSelector` (match-labels form). -/
structure MetaLabelSelector where
  matchLabels : StrMap
deriving DecidableEq

/-- `corev1.ObjectFieldSelector`. -/
structure ObjectFieldSelector where
  fieldPath : String
  apiVersion : String
deriving DecidableEq

/-- `corev1.EnvVarSource`, restricted to the field-ref form used here. -/
structure EnvVarSource where
  fieldRef : Option ObjectFieldSelector
deriving DecidableEq

/-- `corev1.EnvVar`. -/
structure EnvVar where
  name : String
  value : String
  valueFrom : Option EnvVarSource
deriving DecidableEq

/-- `corev1.ContainerPort`. -/
structure ContainerPort where
  name : String
  containerPort : Int
deriving DecidableEq

/-- `corev1.VolumeMount`. -/
structure VolumeMount where
  name : String
  mountPath : String
deriving DecidableEq

/-- `corev1.Handler`: only the exec form is used by the embedded code. -/
structure Handler where
  exec : Option (List String)
deriving DecidableEq

/-- `corev1.Probe`. -/
structure Probe where
  handler : Handler
  initialDelaySeconds : Int
  timeoutSeconds : Int
  periodSeconds : Int
  successThreshold : Int
  failureThreshold : Int
deriving DecidableEq

/-- `corev1.Lifecycle`. -/
structure Lifecycle where
  preStop : Option Handler
deriving DecidableEq

/-- `corev1.VolumeSource`, restricted to the variants the pod template uses. -/
inductive VolumeSource where
  | secret (secretName : String) (items : List (String × String))
  | configMap (name : String)
  | emptyDir
deriving DecidableEq

/-- `corev1.Volume`. -/
structure Volume where
  name : String
  source : VolumeSource
deriving DecidableEq

/-- `corev1.Container`, restricted to the fields the embedded code sets. -/
structure Container where
  name : String
  image : String
  command : List String
  env : List EnvVar
  ports : List ContainerPort
  volumeMounts : List VolumeMount
  resources : ResourceRequirements
  readinessProbe : Option Probe
  lifecycle : Option Lifecycle
deriving DecidableEq

/-- `corev1.PodSecurityContext`. -/
structure PodSecurityContext where
  fsGroup : Option Int
  runAsGroup : Option Int
  runAsUser : Option Int
deriving DecidableEq

/-- `corev1.PodSpec`, restricted to the fields the embedded code sets.
Affinity and tolerations are opaque payloads copied verbatim from the
cluster spec, embedded as strings. -/
structure PodSpec where
  securityContext : Option PodSecurityContext
  terminationGracePeriodSeconds : Option Int
  serviceAccountName : String
  automountServiceAccountToken : Option Bool
  initContainers : List Container
  containers : List Container
  imagePullSecrets : List String
  affinity : Option String
  tolerations : List String
  volumes : List Volume
deriving DecidableEq

/-- `corev1.PodTemplateSpec`. -/
structure PodTemplateSpec where
  meta : ObjectMeta
  spec : PodSpec
deriving DecidableEq

/-- `corev1.PersistentVolumeAccessMode`. -/
inductive AccessMode where
  | readWriteOnce
  | readOnlyMany
  | readWriteMany
deriving DecidableEq

/-- `corev1.PersistentVolumeClaimSpec`, restricted to the fields set here. -/
structure PVCSpec where
  requests : ResourceList
  accessModes : List AccessMode
  storageClassName : Option String
deriving DecidableEq

/-- `corev1.PersistentVolumeClaim`. -/
structure PVC where
  meta : ObjectMeta
  spec : PVCSpec
deriving DecidableEq

/-- `appsv1.StatefulSetSpec`, restricted to the fields the embedded code
touches plus representative fields (`podManagementPolicy`,
`updateStrategy`) outside the builder's mutable set. -/
structure StatefulSetSpec where
  replicas : Option Int
  serviceName : String
  selector : Option MetaLabelSelector
  volumeClaimTemplates : List PVC
  template : PodTemplateSpec
  podManagementPolicy : String
  updateStrategy : String
deriving DecidableEq

/-- `appsv1.StatefulSet`. -/
structure StatefulSet where
  meta : ObjectMeta
  spec : StatefulSetSpec
deriving DecidableEq

/-- The Go zero-value pod spec. -/
def zeroPodSpec : PodSpec :=
  { securityContext := none, terminationGracePeriodSeconds := none,
    serviceAccountName := "", automountServiceAccountToken := none,
    initContainers := [], containers := [], imagePullSecrets := [],
    affinity := none, tolerations := [], volumes := [] }

/-- The Go zero-value pod template. -/
def zeroPodTemplate : PodTemplateSpec :=
  { meta := zeroMeta, spec := zeroPodSpec }

/-- The Go zero-value stateful set (used only as a fallback when extracting
from a result that is statically known to be `ok`). -/
def zeroStatefulSet : StatefulSet :=
  { meta := zeroMeta,
    spec := { replicas := none, serviceName := "", selector := none,
              volumeClaimTemplates := [], template := zeroPodTemplate,
              podManagementPolicy := "", updateStrategy := "" } }

/-- `RabbitmqClusterPersistenceSpec`: both fields are pointers in Go
(`*string`, `*resource.Quantity`), hence options here. -/
structure PersistenceSpec where
  storageClassName : Option String
  storage : Option Quantity
deriving DecidableEq

/-- `RabbitmqClusterSpec`, restricted to the fields the builder reads.
`resources` is a pointer in Go (`*corev1.ResourceRequirements`), hence an
option here. -/
structure RabbitmqClusterSpec where
  replicas : Int
  image : String
  imagePullSecret : String
  resources : Option ResourceRequirements
  persistence : PersistenceSpec
  affinity : Option String
  tolerations : List String
deriving DecidableEq

/-- `RabbitmqCluster` (the builder's `Instance`), restricted to the metadata
fields the builder reads. -/
structure RabbitmqCluster where
  name : String
  ns : String
  labels : StrMap
  anns : StrMap
  spec : RabbitmqClusterSpec
deriving DecidableEq

/-- Modelled from the spec: `RabbitmqCluster.ChildResourceName`, defined in
the repository's `api/v1beta1` package which is absent from the sources.
Child object naming is `<instance>-<component>-<suffix>` (spec §6) with the
fixed component `rabbitmq`; the repository's own CLI pins this shape by
addressing the pods as `<instance>-rabbitmq-server-<ordinal>`, the admin
secret as `<instance>-rabbitmq-admin` and the client service as
`<instance>-rabbitmq-client`. -/
def ChildResourceName (inst : RabbitmqCluster) (suffix : String) : String :=
  inst.name ++ "-rabbitmq-" ++ suffix

/-- Modelled from the spec: suffix constants for the sibling child resources
referenced by the pod template, declared in resource files absent from the
sources (the CLI pins `admin`; the headless suffix is pinned by the literal
`"headless"` the stateful-set source itself passes for the same service). -/
def headlessServiceName : String := "headless"

/-- Modelled from the spec: suffix of the service-account child resource. -/
def serviceAccountName : String := "server"

/-- Modelled from the spec: suffix of the admin-credential secret child
resource (the CLI reads `<instance>-rabbitmq-admin`). -/
def adminSecretName : String := "admin"

/-- Modelled from the spec: suffix of the rendered-configuration child
resource. -/
def serverConfigMapName : String := "server-conf"

/-- Modelled from the spec: suffix of the shared-secret (erlang cookie)
child resource. -/
def erlangCookieName : String := "erlang-cookie"

/-- Outcome of running a fallible piece of Go code: a normal value together
with the warnings it logged, a returned error, or a runtime panic (nil
dereference, failed type assertion, out-of-range index). -/
inductive BuildResult (α : Type) where
  | ok : α → List String → BuildResult α
  | err : String → BuildResult α
  | crash : String → BuildResult α
deriving DecidableEq

/-- Whether the computation panicked. -/
def isCrash {α : Type} : BuildResult α → Bool
  | .crash _ => true
  | _ => false

/-- `runtime.Object`: the dynamically typed argument of `Update`. Only the
stateful-set case is ever passed by the reconciler; any other case trips the
unchecked type assertion. -/
inductive RuntimeObject where
  | statefulSet : StatefulSet → RuntimeObject
  | other : String → RuntimeObject
deriving DecidableEq

/-- `defaultGracePeriodTimeoutSeconds int64 = 60 * 60 * 24 * 7`. -/
def defaultGracePeriodTimeoutSeconds : Int := 60 * 60 * 24 * 7

/-- `initContainerCPU string = "100m"`. -/
def initContainerCPU : String := "100m"

/-- `initContainerMemory string = "500Mi"`. -/
def initContainerMemory : String := "500Mi"

/-- `persistentVolumeClaim` (statefulset.go:136-160): the single claim
template, labelled, annotated, sized and classed from the spec, with a
controller reference to land on it. The Go code dereferences
`instance.Spec.Persistence.Storage` unconditionally inside the composite
literal, so a nil storage quantity panics. -/
def persistentVolumeClaim (inst : RabbitmqCluster) : BuildResult (List PVC) :=
  match inst.spec.persistence.storage with
  | none => .crash "invalid memory address or nil pointer dereference"
  | some storage =>
    let pvc : PVC :=
      { meta := { zeroMeta with
          name := "persistence",
          ns := inst.ns,
          labels := metadata.Label inst.name,
          anns := metadata.ReconcileAnnotations [] inst.anns },
        spec :=
          { requests := [("storage", storage)],
            accessModes := [.readWriteOnce],
            storageClassName := inst.spec.persistence.storageClassName } }
    match SetControllerReference inst.name pvc.meta.ownerRefs with
    | .error m => .err ("failed setting controller reference: " ++ m)
    | .ok refs => .ok [{ pvc with meta := { pvc.meta with ownerRefs := refs } }] []

/-- The init container of the pod template (`copy-config`), verbatim from
statefulset.go:178-205. -/
def copyConfigContainer : Container :=
  { name := "copy-config",
    image := "",
    command :=
      ["sh", "-c", "cp /tmp/rabbitmq/rabbitmq.conf /etc/rabbitmq/rabbitmq.conf && echo '' >> /etc/rabbitmq/rabbitmq.conf ; " ++
        "cp /tmp/erlang-cookie-secret/.erlang.cookie /var/lib/rabbitmq/.erlang.cookie " ++
        "&& chown 999:999 /var/lib/rabbitmq/.erlang.cookie " ++
        "&& chmod 600 /var/lib/rabbitmq/.erlang.cookie"],
    env := [],
    ports := [],
    volumeMounts :=
      [{ name := "server-conf", mountPath := "/tmp/rabbitmq/" },
       { name := "rabbitmq-etc", mountPath := "/etc/rabbitmq/" },
       { name := "rabbitmq-erlang-cookie", mountPath := "/var/lib/rabbitmq/" },
       { name := "erlang-cookie-secret", mountPath := "/tmp/erlang-cookie-secret/" }],
    resources := { limits := [], requests := [] },
    readinessProbe := none,
    lifecycle := none }

/-- The blocking pre-stop command, verbatim from statefulset.go:317-323. -/
def preStopCommand : List String :=
  ["/bin/bash", "-c", "while true; do rabbitmq-queues check_if_node_is_quorum_critical" ++
    " 2>&1; if [ $(echo $?) -eq 69 ]; then sleep 2; continue; fi;" ++
    " rabbitmq-queues check_if_node_is_mirror_sync_critical" ++
    " 2>&1; if [ $(echo $?) -eq 69 ]; then sleep 2; continue; fi; break;" ++
    " done"]

/-- The main broker container of the pod template, verbatim from
statefulset.go:207-327. -/
def rabbitmqContainer (inst : RabbitmqCluster) : Container :=
  { name := "rabbitmq",
    image := "",
    command := [],
    env :=
      [{ name := "RABBITMQ_ENABLED_PLUGINS_FILE", value := "/opt/server-conf/enabled_plugins", valueFrom := none },
       { name := "RABBITMQ_DEFAULT_PASS_FILE", value := "/opt/rabbitmq-secret/password", valueFrom := none },
       { name := "RABBITMQ_DEFAULT_USER_FILE", value := "/opt/rabbitmq-secret/username", valueFrom := none },
       { name := "RABBITMQ_MNESIA_BASE", value := "/var/lib/rabbitmq/db", valueFrom := none },
       { name := "MY_POD_NAME", value := "",
         valueFrom := some { fieldRef := some { fieldPath := "metadata.name", apiVersion := "v1" } } },
       { name := "MY_POD_NAMESPACE", value := "",
         valueFrom := some { fieldRef := some { fieldPath := "metadata.namespace", apiVersion := "v1" } } },
       { name := "K8S_SERVICE_NAME", value := ChildResourceName inst "headless", valueFrom := none },
       { name := "RABBITMQ_USE_LONGNAME", value := "true", valueFrom := none },
       { name := "RABBITMQ_NODENAME",
         value := "rabbit@$(MY_POD_NAME).$(K8S_SERVICE_NAME).$(MY_POD_NAMESPACE).svc.cluster.local",
         valueFrom := none },
       { name := "K8S_HOSTNAME_SUFFIX",
         value := ".$(K8S_SERVICE_NAME).$(MY_POD_NAMESPACE).svc.cluster.local",
         valueFrom := none }],
    ports :=
      [{ name := "epmd", containerPort := 4369 },
       { name := "amqp", containerPort := 5672 },
       { name := "http", containerPort := 15672 },
       { name := "prometheus", containerPort := 15692 }],
    volumeMounts :=
      [{ name := "server-conf", mountPath := "/opt/server-conf/" },
       { name := "rabbitmq-admin", mountPath := "/opt/rabbitmq-secret/" },
       { name := "persistence", mountPath := "/var/lib/rabbitmq/db/" },
       { name := "rabbitmq-etc", mountPath := "/etc/rabbitmq/" },
       { name := "rabbitmq-erlang-cookie", mountPath := "/var/lib/rabbitmq/" }],
    resources := { limits := [], requests := [] },
    readinessProbe := some
      { handler := { exec := some ["/bin/sh", "-c", "rabbitmq-diagnostics check_port_connectivity"] },
        initialDelaySeconds := 10, timeoutSeconds := 5, periodSeconds := 30,
        successThreshold := 1, failureThreshold := 3 },
    lifecycle := some { preStop := some { exec := some preStopCommand } } }

/-- `podTemplateSpec` (statefulset.go:162-381). -/
def podTemplateSpec (inst : RabbitmqCluster) : PodTemplateSpec :=
  { meta := zeroMeta,
    spec :=
      { securityContext := some { fsGroup := some 999, runAsGroup := some 999, runAsUser := some 999 },
        terminationGracePeriodSeconds := some defaultGracePeriodTimeoutSeconds,
        serviceAccountName := ChildResourceName inst serviceAccountName,
        automountServiceAccountToken := some true,
        initContainers := [copyConfigContainer],
        containers := [rabbitmqContainer inst],
        imagePullSecrets := [],
        affinity := none,
        tolerations := [],
        volumes :=
          [{ name := "rabbitmq-admin",
             source := .secret (ChildResourceName inst adminSecretName)
               [("username", "username"), ("password", "password")] },
           { name := "server-conf",
             source := .configMap (ChildResourceName inst serverConfigMapName) },
           { name := "rabbitmq-etc", source := .emptyDir },
           { name := "rabbitmq-erlang-cookie", source := .emptyDir },
           { name := "erlang-cookie-secret",
             source := .secret (ChildResourceName inst erlangCookieName) [] }] } }

/-- `statefulSet` (statefulset.go:40-60): the skeleton with the
identity-bearing fields (name, discovery-endpoint service name, selector,
volume claim templates) and nothing else. -/
def statefulSet (inst : RabbitmqCluster) : BuildResult StatefulSet :=
  match persistentVolumeClaim inst with
  | .err m => .err m
  | .crash m => .crash m
  | .ok pvc _ =>
    .ok { meta := { zeroMeta with
            name := ChildResourceName inst "server",
            ns := inst.ns },
          spec :=
            { replicas := none,
              serviceName := ChildResourceName inst headlessServiceName,
              selector := some { matchLabels := metadata.LabelSelector inst.name },
              volumeClaimTemplates := pvc,
              template := zeroPodTemplate,
              podManagementPolicy := "",
              updateStrategy := "" } } []

/-- `Build` (statefulset.go:36-38). -/
def Build (inst : RabbitmqCluster) : BuildResult RuntimeObject :=
  match statefulSet inst with
  | .ok s w => .ok (.statefulSet s) w
  | .err m => .err m
  | .crash m => .crash m

/-- The warning logged when the main container's memory request and limit
disagree (statefulset.go:114-117). -/
def memWarning (stsName : String) : String :=
  "Warning: Memory request and limit are not equal for \"" ++ stsName ++
    "\". It is recommended that they be set to the same value"

/-- `setStatefulSetParams` (statefulset.go:72-134): sets the controller
reference, labels, replicas, init-container resources (fixed constants),
main-container resources (with the non-fatal memory warning), images, pull
secrets, affinity and tolerations. Indexing `InitContainers[0]` or
`Containers[0]` on an empty list panics, as does dereferencing a nil
`Instance.Spec.Resources`. -/
def setStatefulSetParams (inst : RabbitmqCluster) (sts : StatefulSet) :
    BuildResult StatefulSet :=
  match SetControllerReference inst.name sts.meta.ownerRefs with
  | .error m => .err ("failed setting controller reference: " ++ m)
  | .ok refs =>
    let updatedLabels := metadata.GetLabels inst.name inst.labels
    match ParseQuantity initContainerCPU with
    | .error m => .err m
    | .ok cpuRequest =>
      match ParseQuantity initContainerMemory with
      | .error m => .err m
      | .ok memoryRequest =>
        match sts.spec.template.spec.initContainers with
        | [] => .crash "index out of range [0] with length 0"
        | ic0 :: icRest =>
          match sts.spec.template.spec.containers with
          | [] => .crash "index out of range [0] with length 0"
          | c0 :: cRest =>
            match inst.spec.resources with
            | none => .crash "invalid memory address or nil pointer dereference"
            | some res =>
              let ic0' : Container :=
                { ic0 with
                  resources :=
                    { limits := [("cpu", cpuRequest), ("memory", memoryRequest)],
                      requests := [("cpu", cpuRequest), ("memory", memoryRequest)] },
                  image := inst.spec.image }
              let c0' : Container := { c0 with resources := res, image := inst.spec.image }
              let warns : List String :=
                if memoryOf c0'.resources.limits = memoryOf c0'.resources.requests then []
                else [memWarning sts.meta.name]
              let pullSecrets : List String :=
                if inst.spec.imagePullSecret = "" then [] else [inst.spec.imagePullSecret]
              .ok { sts with
                meta := { sts.meta with ownerRefs := refs, labels := updatedLabels },
                spec := { sts.spec with
                  replicas := some inst.spec.replicas,
                  template := { sts.spec.template with
                    meta := { sts.spec.template.meta with labels := updatedLabels },
                    spec := { sts.spec.template.spec with
                      initContainers := ic0' :: icRest,
                      containers := c0' :: cRest,
                      imagePullSecrets := pullSecrets,
                      affinity := inst.spec.affinity,
                      tolerations := inst.spec.tolerations } } } } warns

/-- `Update` on an already-asserted stateful set (statefulset.go:62-70):
reconciles the pod and object annotations against the instance's, replaces
the pod template wholesale, restores the reconciled pod annotations, and
applies the mutable parameters. -/
def updateFn (inst : RabbitmqCluster) (sts : StatefulSet) : BuildResult StatefulSet :=
  let podAnns := metadata.ReconcileAnnotations sts.spec.template.meta.anns inst.anns
  let anns := metadata.ReconcileAnnotations sts.meta.anns inst.anns
  let tpl := podTemplateSpec inst
  let sts' : StatefulSet :=
    { sts with
      meta := { sts.meta with anns := anns },
      spec := { sts.spec with
        template := { tpl with meta := { tpl.meta with anns := podAnns } } } }
  setStatefulSetParams inst sts'

/-- `Update` (statefulset.go:62-70), including the unchecked type assertion
`object.(*appsv1.StatefulSet)` which panics on any other object kind. -/
def Update (inst : RabbitmqCluster) (object : RuntimeObject) : BuildResult StatefulSet :=
  match object with
  | .statefulSet sts => updateFn inst sts
  | .other _ => .crash "interface conversion: object is not *appsv1.StatefulSet"

/-- The reserved sentinel exit code of the diagnostic command protocol,
meaning "retryable/critical — do not proceed yet". -/
def sentinel : Int := 69

/-- State of one execution of the pre-stop hook: how many diagnostic
commands have been invoked in total (`calls`, which indexes the stream of
results), how many of those were the quorum-critical check (`qCalls`) and
the mirror-sync-critical check (`mCalls`), and how many 2-second waits were
performed (`sleeps`). -/
structure HookState where
  calls : Nat
  qCalls : Nat
  mCalls : Nat
  sleeps : Nat
deriving DecidableEq

/-- Step-relation semantics of the bash loop in `preStopCommand`
(statefulset.go:318-322), as a fuel-bounded function over the stream
`diag` of diagnostic exit codes: each iteration invokes the quorum-critical
check; on the sentinel code it sleeps 2 seconds and restarts; otherwise it
invokes the mirror-sync-critical check; on the sentinel code it sleeps 2
seconds and restarts; otherwise the hook returns and termination proceeds.
`none` means the fuel ran out before the loop exited. -/
def preStopLoop (diag : Nat → Int) : Nat → HookState → Option HookState
  | 0, _ => none
  | fuel + 1, s =>
    if diag s.calls = sentinel then
      preStopLoop diag fuel ⟨s.calls + 1, s.qCalls + 1, s.mCalls, s.sleeps + 1⟩
    else if diag (s.calls + 1) = sentinel then
      preStopLoop diag fuel ⟨s.calls + 2, s.qCalls + 1, s.mCalls + 1, s.sleeps + 1⟩
    else
      some ⟨s.calls + 2, s.qCalls + 1, s.mCalls + 1, s.sleeps⟩

/-- The mocked diagnostic of the safety-loop scenario: the sentinel code
twice, then success forever. -/
def mockDiag (n : Nat) : Int :=
  if n < 2 then sentinel else 0

/-- Whenever the pre-stop loop terminates, it has consumed at least two
diagnostic results and the last two — the final quorum-critical check
followed by the final mirror-sync-critical check — were both non-sentinel:
the hook never permits shutdown on a sentinel response. -/
theorem preStopLoop_safe (diag : Nat → Int) :
    ∀ (fuel : Nat) (s s' : HookState), preStopLoop diag fuel s = some s' →
      s.calls + 2 ≤ s'.calls ∧
      diag (s'.calls - 2) ≠ sentinel ∧ diag (s'.calls - 1) ≠ sentinel := by
  intro fuel
  induction fuel with
  | zero =>
    intro s s' h
    simp [preStopLoop] at h
  | succ n ih =>
    intro s s' h
    rw [preStopLoop] at h
    by_cases hq : diag s.calls = sentinel
    · rw [if_pos hq] at h
      have hrec := ih _ _ h
      refine ⟨?_, hrec.2⟩
      have hle : s.calls + 1 + 2 ≤ s'.calls := hrec.1
      omega
    · rw [if_neg hq] at h
      by_cases hm : diag (s.calls + 1) = sentinel
      · rw [if_pos hm] at h
        have hrec := ih _ _ h
        refine ⟨?_, hrec.2⟩
        have hle : s.calls + 2 + 2 ≤ s'.calls := hrec.1
        omega
      · rw [if_neg hm] at h
        have hs' : s' = ⟨s.calls + 2, s.qCalls + 1, s.mCalls + 1, s.sleeps⟩ := by
          injection h with h
          exact h.symm
        subst hs'
        refine ⟨Nat.le_refl _, ?_, ?_⟩
        · simpa using hq
        · simpa using hm

/-- Every entry of a map is, in particular, a key of that map. -/
theorem containsKey_of_mem {d : StrMap} {kv : String × String} (h : kv ∈ d) :
    containsKey d kv.1 = true := by
  simp only [containsKey, List.any_eq_true]
  exact ⟨kv, h, by simp⟩

/-- Dropping from a map the keys that map itself contains leaves nothing. -/
theorem filter_not_containsKey_self (d : StrMap) :
    d.filter (fun kv => !(containsKey d kv.1)) = [] := by
  rw [List.filter_eq_nil_iff]
  intro kv hkv
  simp [containsKey_of_mem hkv]

/-- Reconciling annotations is idempotent in the existing map. -/
theorem reconcile_idem (e d : StrMap) :
    metadata.ReconcileAnnotations (metadata.ReconcileAnnotations e d) d =
      metadata.ReconcileAnnotations e d := by
  unfold metadata.ReconcileAnnotations
  rw [List.filter_append, filter_not_containsKey_self, List.append_nil,
    List.filter_filter]
  congr 1
  simp

/-- If a predicate finds nothing in the first list, searching the
concatenation searches the second list. -/
theorem find?_append_none {α : Type} (p : α → Bool) {l₁ : List α} (l₂ : List α)
    (h : l₁.find? p = none) : (l₁ ++ l₂).find? p = l₂.find? p := by
  induction l₁ with
  | nil => simp
  | cons a t ih =>
    rw [List.find?_cons] at h
    cases hpa : p a with
    | true => simp [hpa] at h
    | false =>
      rw [hpa] at h
      simpa [List.find?_cons, hpa] using ih h

/-- Setting the controller reference is idempotent: once an object carries
the controller reference produced by a successful call, a second call for
the same owner succeeds and leaves the references unchanged. -/
theorem setControllerReference_idem (owner : String) (refs refs' : List OwnerRef)
    (h : SetControllerReference owner refs = .ok refs') :
    SetControllerReference owner refs' = .ok refs' := by
  unfold SetControllerReference at h ⊢
  split at h
  · rename_i r hf
    split at h
    · rename_i hn
      injection h with h
      subst h
      rw [hf]
      simp [hn]
    · exact absurd h (by simp)
  · rename_i hf
    injection h with h
    subst h
    rw [find?_append_none _ _ hf]
    simp [List.find?_cons]

/-- A key the desired map does not mention keeps its existing value (or its
absence) across annotation reconciliation. -/
theorem getVal_reconcile (e d : StrMap) (k : String)
    (hk : containsKey d k = false) :
    getVal (metadata.ReconcileAnnotations e d) k = getVal e k := by
  have hd : d.find? (fun kv => kv.1 == k) = none := by
    rw [List.find?_eq_none]
    intro kv hkv
    simp only [containsKey, List.any_eq_false] at hk
    simpa using hk kv hkv
  unfold metadata.ReconcileAnnotations getVal
  induction e with
  | nil => simp [hd]
  | cons kv t ih =>
    by_cases hq : (kv.1 == k) = true
    · have hkv : containsKey d kv.1 = false := by
        have : kv.1 = k := by simpa using hq
        rw [this]
        exact hk
      simp [List.filter_cons, hkv, List.find?_cons, hq]
    · have hq' : (kv.1 == k) = false := by
        simpa using hq
      cases hp : containsKey d kv.1 with
      | true => simpa [List.filter_cons, hp, List.find?_cons, hq'] using ih
      | false => simpa [List.filter_cons, hp, List.find?_cons, hq'] using ih

/-- The canonical value of the `initContainerCPU` constant `"100m"`. -/
def cpu100m : Quantity := 100

/-- The canonical value of the `initContainerMemory` constant `"500Mi"`. -/
def mem500Mi : Quantity := 500 * 1048576 * 1000

theorem parse_cpu : ParseQuantity initContainerCPU = .ok cpu100m := rfl

theorem parse_mem : ParseQuantity initContainerMemory = .ok mem500Mi := rfl

/-- The fixed resource requirements `Update` stamps on the init container:
requests equal to limits, both `100m` CPU and `500Mi` memory. -/
def initContainerResources : ResourceRequirements :=
  { limits := [("cpu", cpu100m), ("memory", mem500Mi)],
    requests := [("cpu", cpu100m), ("memory", mem500Mi)] }

/-- The warnings a successful `Update` logs: exactly one when the main
container's memory request and limit disagree, none otherwise. -/
def updateWarns (sts : StatefulSet) (res : ResourceRequirements) : List String :=
  if memoryOf res.limits = memoryOf res.requests then [] else [memWarning sts.meta.name]

/-- The stateful set a successful `Update` leaves behind, as a function of
the instance, the pre-update object, the reconciled owner references and
the instance's (non-nil) resource requirements. Everything outside this
record's explicitly overwritten fields is carried over from `sts`. -/
def applyUpdate (inst : RabbitmqCluster) (sts : StatefulSet)
    (refs : List OwnerRef) (res : ResourceRequirements) : StatefulSet :=
  { sts with
    meta := { sts.meta with
      anns := metadata.ReconcileAnnotations sts.meta.anns inst.anns,
      labels := metadata.GetLabels inst.name inst.labels,
      ownerRefs := refs },
    spec := { sts.spec with
      replicas := some inst.spec.replicas,
      template :=
        { meta := { (podTemplateSpec inst).meta with
            anns := metadata.ReconcileAnnotations sts.spec.template.meta.anns inst.anns,
            labels := metadata.GetLabels inst.name inst.labels },
          spec := { (podTemplateSpec inst).spec with
            initContainers :=
              [{ copyConfigContainer with
                 resources := initContainerResources,
                 image := inst.spec.image }],
            containers :=
              [{ rabbitmqContainer inst with resources := res, image := inst.spec.image }],
            imagePullSecrets :=
              if inst.spec.imagePullSecret = "" then [] else [inst.spec.imagePullSecret],
            affinity := inst.spec.affinity,
            tolerations := inst.spec.tolerations } } } }

/-- Normal form of `updateFn`: it fails exactly when the controller
reference cannot be set, panics exactly when the instance's resources are
nil, and otherwise produces `applyUpdate` plus the memory warnings. -/
theorem updateFn_eq (inst : RabbitmqCluster) (sts : StatefulSet) :
    updateFn inst sts =
      match SetControllerReference inst.name sts.meta.ownerRefs with
      | .error m => .err ("failed setting controller reference: " ++ m)
      | .ok refs =>
        match inst.spec.resources with
        | none => .crash "invalid memory address or nil pointer dereference"
        | some res => .ok (applyUpdate inst sts refs res) (updateWarns sts res) := by
  simp only [updateFn, setStatefulSetParams, podTemplateSpec, parse_cpu, parse_mem]
  cases SetControllerReference inst.name sts.meta.ownerRefs with
  | error m => rfl
  | ok refs =>
    cases inst.spec.resources with
    | none => rfl
    | some res => rfl

/-- The same instance with only the replica count changed. -/
def withReplicas (inst : RabbitmqCluster) (m : Int) : RabbitmqCluster :=
  { inst with spec := { inst.spec with replicas := m } }

/-- Applying the update transformation twice — the second time with an
instance that differs at most in its replica count — changes nothing but
the replica field. -/
theorem applyUpdate_applyUpdate (inst : RabbitmqCluster) (m : Int)
    (sts : StatefulSet) (refs : List OwnerRef) (res : ResourceRequirements) :
    applyUpdate (withReplicas inst m) (applyUpdate inst sts refs res) refs res =
      { applyUpdate inst sts refs res with
        spec := { (applyUpdate inst sts refs res).spec with replicas := some m } } := by
  simp only [applyUpdate, withReplicas, podTemplateSpec, rabbitmqContainer,
    copyConfigContainer, ChildResourceName, reconcile_idem]

/-- C1. For every valid cluster spec, the StatefulSet builder's `Update` is
idempotent: whenever an `Update` succeeds — in particular on the object
`Build` has just produced — running `Update` again with the unchanged spec
succeeds, returns the identical object and logs the identical warnings: no
further observable change. -/
theorem update_idempotent (inst : RabbitmqCluster) (object : RuntimeObject)
    (s : StatefulSet) (w : List String)
    (h : Update inst object = .ok s w) :
    Update inst (.statefulSet s) = .ok s w := by
  cases object with
  | other x => simp [Update] at h
  | statefulSet sts =>
    simp only [Update] at h ⊢
    rw [updateFn_eq] at h
    rw [updateFn_eq]
    cases hf : SetControllerReference inst.name sts.meta.ownerRefs with
    | error m =>
      rw [hf] at h
      exact absurd h (by simp)
    | ok refs =>
      rw [hf] at h
      cases hr : inst.spec.resources with
      | none =>
        rw [hr] at h
        exact absurd h (by simp)
      | some res =>
        rw [hr] at h
        injection h with h1 h2
        subst h1
        subst h2
        have hrefs : (applyUpdate inst sts refs res).meta.ownerRefs = refs := rfl
        rw [hrefs, setControllerReference_idem inst.name sts.meta.ownerRefs refs hf]
        have h2 : applyUpdate inst (applyUpdate inst sts refs res) refs res =
            applyUpdate inst sts refs res :=
          applyUpdate_applyUpdate inst inst.spec.replicas sts refs res
        simp only [h2]
        rfl

/-- A concrete instance used to witness the universally quantified
theorems. -/
def demoInst : RabbitmqCluster :=
  { name := "demo", ns := "ns1",
    labels := [("team", "a")],
    anns := [("k1", "v1")],
    spec :=
      { replicas := 2, image := "rabbitmq:3.8", imagePullSecret := "",
        resources := some { limits := [("memory", 1000)], requests := [("memory", 1000)] },
        persistence := { storageClassName := some "fast", storage := some 5000 },
        affinity := none, tolerations := [] } }

/-- The skeleton `Build` produces for `demoInst`. -/
def demoBuilt : StatefulSet :=
  match statefulSet demoInst with
  | .ok s _ => s
  | _ => zeroStatefulSet

/-- A live object: the built skeleton carrying a user-added annotation and
orchestration-assigned identifiers, as it would come back from the API
server. -/
def demoSts : StatefulSet :=
  { demoBuilt with
    meta := { demoBuilt.meta with
      anns := [("user.io/note", "keep")],
      uid := "u-123", resourceVersion := "42" } }

/-- The object after the first `Update` of `demoSts`. -/
def demoS1 : StatefulSet :=
  match updateFn demoInst demoSts with
  | .ok s _ => s
  | _ => zeroStatefulSet

/-- The warnings of the first `Update` of `demoSts`. -/
def demoW1 : List String :=
  match updateFn demoInst demoSts with
  | .ok _ w => w
  | _ => []

set_option maxRecDepth 100000 in
theorem update_idempotent_witness :
    Update demoInst (.statefulSet demoS1) = .ok demoS1 demoW1 :=
  update_idempotent demoInst (.statefulSet demoSts) demoS1 demoW1 (by decide)

/-- C2. `Update` never re-applies the identity-bearing fields: a successful
`Update` leaves the object's `ServiceName`, `Selector` and
`VolumeClaimTemplates` exactly as they were before the call; and a second
reconcile whose spec differs only in the replica count changes only the
replica field, leaving the whole rest of the object — those three fields
included — byte-identical. -/
theorem update_preserves_identity (inst : RabbitmqCluster) (m : Int)
    (sts s1 s2 : StatefulSet) (w1 w2 : List String)
    (h1 : Update inst (.statefulSet sts) = .ok s1 w1)
    (h2 : Update (withReplicas inst m) (.statefulSet s1) = .ok s2 w2) :
    s1.spec.serviceName = sts.spec.serviceName ∧
    s1.spec.selector = sts.spec.selector ∧
    s1.spec.volumeClaimTemplates = sts.spec.volumeClaimTemplates ∧
    s2 = { s1 with spec := { s1.spec with replicas := some m } } := by
  simp only [Update] at h1 h2
  rw [updateFn_eq] at h1
  cases hf : SetControllerReference inst.name sts.meta.ownerRefs with
  | error msg =>
    rw [hf] at h1
    exact absurd h1 (by simp)
  | ok refs =>
    rw [hf] at h1
    cases hr : inst.spec.resources with
    | none =>
      rw [hr] at h1
      exact absurd h1 (by simp)
    | some res =>
      rw [hr] at h1
      injection h1 with e1 ew1
      subst e1
      refine ⟨rfl, rfl, rfl, ?_⟩
      rw [updateFn_eq] at h2
      have hscr : SetControllerReference (withReplicas inst m).name
          (applyUpdate inst sts refs res).meta.ownerRefs = .ok refs :=
        setControllerReference_idem inst.name sts.meta.ownerRefs refs hf
      rw [hscr] at h2
      have hres2 : (withReplicas inst m).spec.resources = some res := hr
      rw [hres2] at h2
      injection h2 with e2 ew2
      subst e2
      exact applyUpdate_applyUpdate inst m sts refs res

/-- The object after a second reconcile of `demoS1` with only the replica
count changed (2 → 5). -/
def demoS2 : StatefulSet :=
  match updateFn (withReplicas demoInst 5) demoS1 with
  | .ok s _ => s
  | _ => zeroStatefulSet

/-- The warnings of the second reconcile producing `demoS2`. -/
def demoW2 : List String :=
  match updateFn (withReplicas demoInst 5) demoS1 with
  | .ok _ w => w
  | _ => []

/-- C3. The pre-stop termination hook never permits shutdown while either
safety check returns the sentinel exit code 69: whenever the loop
terminates, the final quorum-critical check and the final
mirror-sync-critical check — the last two diagnostics consumed — both
returned non-sentinel codes, and on every sentinel the loop slept 2 seconds
and retried the quorum-critical check. Under the mocked diagnostic
returning the sentinel twice and then success, the loop terminates in the
state `⟨4, 3, 1, 2⟩`: the quorum-critical check was invoked exactly three
times (and the mirror-sync check once, after two 2-second waits). The hook
is installed in the pod template next to the paired termination grace
period of 7 days (604800 seconds). -/
theorem prestop_hook_safe (inst : RabbitmqCluster) (diag : Nat → Int)
    (fuel : Nat) (s s' : HookState)
    (h : preStopLoop diag fuel s = some s') :
    defaultGracePeriodTimeoutSeconds = 604800 ∧
    (podTemplateSpec inst).spec.terminationGracePeriodSeconds =
      some defaultGracePeriodTimeoutSeconds ∧
    (podTemplateSpec inst).spec.containers = [rabbitmqContainer inst] ∧
    (rabbitmqContainer inst).lifecycle =
      some { preStop := some { exec := some preStopCommand } } ∧
    s.calls + 2 ≤ s'.calls ∧
    diag (s'.calls - 2) ≠ sentinel ∧
    diag (s'.calls - 1) ≠ sentinel ∧
    preStopLoop mockDiag 10 ⟨0, 0, 0, 0⟩ = some ⟨4, 3, 1, 2⟩ ∧
    (⟨4, 3, 1, 2⟩ : HookState).qCalls = 3 ∧
    (⟨4, 3, 1, 2⟩ : HookState).mCalls = 1 ∧
    (⟨4, 3, 1, 2⟩ : HookState).sleeps = 2 := by
  have hs := preStopLoop_safe diag fuel s s' h
  exact ⟨rfl, rfl, rfl, rfl, hs.1, hs.2.1, hs.2.2, by decide, rfl, rfl, rfl⟩

theorem prestop_hook_safe_witness :
    defaultGracePeriodTimeoutSeconds = 604800 ∧
    (podTemplateSpec demoInst).spec.terminationGracePeriodSeconds =
      some defaultGracePeriodTimeoutSeconds ∧
    (podTemplateSpec demoInst).spec.containers = [rabbitmqContainer demoInst] ∧
    (rabbitmqContainer demoInst).lifecycle =
      some { preStop := some { exec := some preStopCommand } } ∧
    (⟨0, 0, 0, 0⟩ : HookState).calls + 2 ≤ (⟨4, 3, 1, 2⟩ : HookState).calls ∧
    mockDiag ((⟨4, 3, 1, 2⟩ : HookState).calls - 2) ≠ sentinel ∧
    mockDiag ((⟨4, 3, 1, 2⟩ : HookState).calls - 1) ≠ sentinel ∧
    preStopLoop mockDiag 10 ⟨0, 0, 0, 0⟩ = some ⟨4, 3, 1, 2⟩ ∧
    (⟨4, 3, 1, 2⟩ : HookState).qCalls = 3 ∧
    (⟨4, 3, 1, 2⟩ : HookState).mCalls = 1 ∧
    (⟨4, 3, 1, 2⟩ : HookState).sleeps = 2 :=
  prestop_hook_safe demoInst mockDiag 10 ⟨0, 0, 0, 0⟩ ⟨4, 3, 1, 2⟩ (by decide)

set_option maxRecDepth 100000 in
theorem update_preserves_identity_witness :
    demoS1.spec.serviceName = demoSts.spec.serviceName ∧
    demoS1.spec.selector = demoSts.spec.selector ∧
    demoS1.spec.volumeClaimTemplates = demoSts.spec.volumeClaimTemplates ∧
    demoS2 = { demoS1 with spec := { demoS1.spec with replicas := some 5 } } :=
  update_preserves_identity demoInst 5 demoSts demoS1 demoS2 demoW1 demoW2
    (by decide) (by decide)

/-- C4. `Update` preserves every field outside the recognized mutable set:
any annotation key on the object or on its pod template that is not among
the controller-managed keys (the keys of the instance's desired
annotations) keeps its pre-update value, and the orchestration-assigned
identifiers (name, namespace, uid, resource version, creation timestamp)
and the spec fields the builder does not own are untouched. -/
theorem update_preserves_unmanaged (inst : RabbitmqCluster) (sts s : StatefulSet)
    (w : List String) (k : String)
    (h : Update inst (.statefulSet sts) = .ok s w)
    (hk : containsKey inst.anns k = false) :
    getVal s.meta.anns k = getVal sts.meta.anns k ∧
    getVal s.spec.template.meta.anns k = getVal sts.spec.template.meta.anns k ∧
    s.meta.name = sts.meta.name ∧
    s.meta.ns = sts.meta.ns ∧
    s.meta.uid = sts.meta.uid ∧
    s.meta.resourceVersion = sts.meta.resourceVersion ∧
    s.meta.creationTimestamp = sts.meta.creationTimestamp ∧
    s.spec.podManagementPolicy = sts.spec.podManagementPolicy ∧
    s.spec.updateStrategy = sts.spec.updateStrategy := by
  simp only [Update] at h
  rw [updateFn_eq] at h
  cases hf : SetControllerReference inst.name sts.meta.ownerRefs with
  | error msg =>
    rw [hf] at h
    exact absurd h (by simp)
  | ok refs =>
    rw [hf] at h
    cases hr : inst.spec.resources with
    | none =>
      rw [hr] at h
      exact absurd h (by simp)
    | some res =>
      rw [hr] at h
      injection h with e1 ew
      subst e1
      exact ⟨getVal_reconcile sts.meta.anns inst.anns k hk,
        getVal_reconcile sts.spec.template.meta.anns inst.anns k hk,
        rfl, rfl, rfl, rfl, rfl, rfl, rfl⟩

set_option maxRecDepth 100000 in
theorem update_preserves_unmanaged_witness :
    getVal demoS1.meta.anns "user.io/note" = getVal demoSts.meta.anns "user.io/note" ∧
    getVal demoS1.spec.template.meta.anns "user.io/note" =
      getVal demoSts.spec.template.meta.anns "user.io/note" ∧
    demoS1.meta.name = demoSts.meta.name ∧
    demoS1.meta.ns = demoSts.meta.ns ∧
    demoS1.meta.uid = demoSts.meta.uid ∧
    demoS1.meta.resourceVersion = demoSts.meta.resourceVersion ∧
    demoS1.meta.creationTimestamp = demoSts.meta.creationTimestamp ∧
    demoS1.spec.podManagementPolicy = demoSts.spec.podManagementPolicy ∧
    demoS1.spec.updateStrategy = demoSts.spec.updateStrategy :=
  update_preserves_unmanaged demoInst demoSts demoS1 demoW1 "user.io/note"
    (by decide) (by decide)

/-- The end-to-end scenario instance `{instance: "my-cluster", replicas: 3,
image: "broker:3.8.9"}`. -/
def myClusterInst : RabbitmqCluster :=
  { name := "my-cluster", ns := "default", labels := [], anns := [],
    spec :=
      { replicas := 3, image := "broker:3.8.9", imagePullSecret := "",
        resources := some { limits := [], requests := [] },
        persistence := { storageClassName := none, storage := some 10000000 },
        affinity := none, tolerations := [] } }

/-- The skeleton `Build` produces for the end-to-end scenario. -/
def myClusterBuilt : StatefulSet :=
  match statefulSet myClusterInst with
  | .ok s _ => s
  | _ => zeroStatefulSet

/-- The object after `Build` followed by `Update` in the end-to-end
scenario. -/
def myClusterFinal : StatefulSet :=
  match updateFn myClusterInst myClusterBuilt with
  | .ok s _ => s
  | _ => zeroStatefulSet

set_option maxRecDepth 100000 in
/-- C5 counterexample. In the end-to-end scenario the workload controller
is not named `my-cluster-server`: `Build` names it via the instance's
child-resource naming, which the repository's own CLI pins to
`<instance>-rabbitmq-<suffix>`, so the produced name is
`my-cluster-rabbitmq-server`. -/
theorem end_to_end_name_cex :
    Build myClusterInst = .ok (.statefulSet myClusterBuilt) [] ∧
    Update myClusterInst (.statefulSet myClusterBuilt) = .ok myClusterFinal [] ∧
    myClusterFinal.meta.name = "my-cluster-rabbitmq-server" ∧
    ¬myClusterFinal.meta.name = "my-cluster-server" := by
  decide

set_option maxRecDepth 100000 in
/-- C5 (amended). For the spec `{instance: "my-cluster", replicas: 3,
image: "broker:3.8.9"}`, `Build` followed by `Update` produces a workload
controller named `my-cluster-rabbitmq-server` with replicas 3, exactly one
volume-claim template named `persistence` with ReadWriteOnce access,
exactly the four container ports 4369, 5672, 15672, 15692, and a
controller-owner reference pointing to `my-cluster`. -/
theorem end_to_end_amended :
    Build myClusterInst = .ok (.statefulSet myClusterBuilt) [] ∧
    Update myClusterInst (.statefulSet myClusterBuilt) = .ok myClusterFinal [] ∧
    myClusterFinal.meta.name = "my-cluster-rabbitmq-server" ∧
    myClusterFinal.spec.replicas = some 3 ∧
    myClusterFinal.spec.volumeClaimTemplates.map (fun p => p.meta.name) = ["persistence"] ∧
    myClusterFinal.spec.volumeClaimTemplates.map (fun p => p.spec.accessModes) =
      [[.readWriteOnce]] ∧
    myClusterFinal.spec.template.spec.containers.map
      (fun c => c.ports.map (fun p => p.containerPort)) = [[4369, 5672, 15672, 15692]] ∧
    myClusterFinal.meta.ownerRefs = [{ name := "my-cluster", controller := true }] := by
  decide

/-- C6. A mismatch between the main container's memory request and memory
limit never aborts or blocks reconciliation: for every such spec (with the
controller reference settable), `Update` succeeds — returning the normally
updated object — and the mismatch is reported as exactly one logged warning
for that `Update` call. -/
theorem mem_mismatch_is_warning (inst : RabbitmqCluster) (sts : StatefulSet)
    (res : ResourceRequirements) (refs : List OwnerRef)
    (hres : inst.spec.resources = some res)
    (hmem : ¬memoryOf res.limits = memoryOf res.requests)
    (hown : SetControllerReference inst.name sts.meta.ownerRefs = .ok refs) :
    Update inst (.statefulSet sts) =
      .ok (applyUpdate inst sts refs res) [memWarning sts.meta.name] := by
  simp only [Update]
  rw [updateFn_eq, hown, hres]
  simp only [updateWarns]
  rw [if_neg hmem]

/-- An instance whose memory limit (2000) and request (1000) disagree. -/
def demoInstBad : RabbitmqCluster :=
  { demoInst with
    spec := { demoInst.spec with
      resources := some { limits := [("memory", 2000)], requests := [("memory", 1000)] } } }

set_option maxRecDepth 100000 in
theorem mem_mismatch_is_warning_witness :
    Update demoInstBad (.statefulSet demoSts) =
      .ok (applyUpdate demoInstBad demoSts [{ name := "demo", controller := true }]
            { limits := [("memory", 2000)], requests := [("memory", 1000)] })
        [memWarning demoSts.meta.name] :=
  mem_mismatch_is_warning demoInstBad demoSts
    { limits := [("memory", 2000)], requests := [("memory", 1000)] }
    [{ name := "demo", controller := true }]
    (by decide) (by decide) (by decide)

/-- The single claim template the storage-claim builder produces for an
instance whose persistence storage is `storage`. -/
def pvcOf (inst : RabbitmqCluster) (storage : Quantity) : PVC :=
  { meta := { zeroMeta with
      name := "persistence",
      ns := inst.ns,
      labels := metadata.Label inst.name,
      anns := metadata.ReconcileAnnotations [] inst.anns,
      ownerRefs := [{ name := inst.name, controller := true }] },
    spec :=
      { requests := [("storage", storage)],
        accessModes := [.readWriteOnce],
        storageClassName := inst.spec.persistence.storageClassName } }

/-- C7. For every spec with a storage quantity, the storage-claim builder
produces exactly one claim template: ReadWriteOnce as its single access
mode, storage request and storage class taken from the spec's persistence
config, and a controller-owner reference to the instance. The template set
is created only by `Build`: a successful `Update` leaves the object's
volume-claim templates exactly as they were. -/
theorem pvc_single_and_immutable (inst : RabbitmqCluster) (q : Quantity)
    (hq : inst.spec.persistence.storage = some q) :
    persistentVolumeClaim inst = .ok [pvcOf inst q] [] ∧
    (pvcOf inst q).meta.name = "persistence" ∧
    (pvcOf inst q).spec.accessModes = [.readWriteOnce] ∧
    (pvcOf inst q).spec.requests = [("storage", q)] ∧
    (pvcOf inst q).spec.storageClassName = inst.spec.persistence.storageClassName ∧
    (pvcOf inst q).meta.ownerRefs = [{ name := inst.name, controller := true }] ∧
    (∀ sts s w, Update inst (.statefulSet sts) = .ok s w →
      s.spec.volumeClaimTemplates = sts.spec.volumeClaimTemplates) := by
  refine ⟨?_, rfl, rfl, rfl, rfl, rfl, ?_⟩
  · unfold persistentVolumeClaim
    rw [hq]
    rfl
  · intro sts s w h
    simp only [Update] at h
    rw [updateFn_eq] at h
    cases hf : SetControllerReference inst.name sts.meta.ownerRefs with
    | error msg =>
      rw [hf] at h
      exact absurd h (by simp)
    | ok refs =>
      rw [hf] at h
      cases hr : inst.spec.resources with
      | none =>
        rw [hr] at h
        exact absurd h (by simp)
      | some res =>
        rw [hr] at h
        injection h with e1 ew
        subst e1
        rfl

theorem pvc_single_and_immutable_witness :
    persistentVolumeClaim demoInst = .ok [pvcOf demoInst 5000] [] :=
  (pvc_single_and_immutable demoInst 5000 (by decide)).1

/-- Value of the environment variable named `n` in container `c`. -/
def envValueOf (c : Container) (n : String) : Option String :=
  (c.env.find? (fun e => e.name == n)).map (fun e => e.value)

/-- Source (value-from) of the environment variable named `n` in `c`. -/
def envSourceOf (c : Container) (n : String) : Option (Option EnvVarSource) :=
  (c.env.find? (fun e => e.name == n)).map (fun e => e.valueFrom)

/-- C8. For every spec, the main container's environment defines the node
identity deterministically: `RABBITMQ_NODENAME` is the fixed pattern
`rabbit@$(MY_POD_NAME).$(K8S_SERVICE_NAME).$(MY_POD_NAMESPACE).svc.cluster.local`
— the same literal for every instance, so it depends only on the pod's
stable name, the headless discovery-endpoint name and the namespace, and is
unchanged as long as the pod ordinal is unchanged — with
`RABBITMQ_USE_LONGNAME` forcing fully-qualified node names set to `true`,
`K8S_SERVICE_NAME` bound to the headless discovery endpoint's name, and the
pod name and namespace injected from the downward API. -/
theorem nodename_deterministic (inst : RabbitmqCluster) :
    (podTemplateSpec inst).spec.containers = [rabbitmqContainer inst] ∧
    envValueOf (rabbitmqContainer inst) "RABBITMQ_NODENAME" =
      some "rabbit@$(MY_POD_NAME).$(K8S_SERVICE_NAME).$(MY_POD_NAMESPACE).svc.cluster.local" ∧
    envValueOf (rabbitmqContainer inst) "RABBITMQ_USE_LONGNAME" = some "true" ∧
    envValueOf (rabbitmqContainer inst) "K8S_SERVICE_NAME" =
      some (ChildResourceName inst "headless") ∧
    envSourceOf (rabbitmqContainer inst) "MY_POD_NAME" =
      some (some { fieldRef := some { fieldPath := "metadata.name", apiVersion := "v1" } }) ∧
    envSourceOf (rabbitmqContainer inst) "MY_POD_NAMESPACE" =
      some (some { fieldRef := some { fieldPath := "metadata.namespace", apiVersion := "v1" } }) :=
  ⟨rfl, rfl, rfl, rfl, rfl, rfl⟩

theorem nodename_deterministic_witness :
    envValueOf (rabbitmqContainer demoInst) "RABBITMQ_NODENAME" =
      some "rabbit@$(MY_POD_NAME).$(K8S_SERVICE_NAME).$(MY_POD_NAMESPACE).svc.cluster.local" :=
  (nodename_deterministic demoInst).2.1

/-- C9. `Build` and `Update` are total only under the implicit
preconditions: `Update` performs an unchecked type assertion, so any
non-StatefulSet argument panics; with the controller reference settable, a
nil `Instance.Spec.Resources` makes `Update` panic on its unconditional
dereference, and a nil `Instance.Spec.Persistence.Storage` makes `Build`
panic on its unconditional dereference; conversely, when the respective
field is non-nil the call never panics (it returns a value or an error). -/
theorem build_update_preconditions (inst : RabbitmqCluster) (sts : StatefulSet)
    (x : String) (refs : List OwnerRef)
    (hown : SetControllerReference inst.name sts.meta.ownerRefs = .ok refs) :
    isCrash (Update inst (.other x)) = true ∧
    (inst.spec.resources = none → isCrash (Update inst (.statefulSet sts)) = true) ∧
    (inst.spec.persistence.storage = none → isCrash (Build inst) = true) ∧
    (inst.spec.resources ≠ none → isCrash (Update inst (.statefulSet sts)) = false) ∧
    (inst.spec.persistence.storage ≠ none → isCrash (Build inst) = false) := by
  refine ⟨rfl, ?_, ?_, ?_, ?_⟩
  · intro hnone
    simp only [Update]
    rw [updateFn_eq, hown, hnone]
    rfl
  · intro hnone
    simp only [Build, statefulSet, persistentVolumeClaim, hnone, isCrash]
  · intro hsome
    cases hr : inst.spec.resources with
    | none => exact absurd hr hsome
    | some res =>
      simp only [Update]
      rw [updateFn_eq, hown, hr]
      rfl
  · intro hsome
    cases hp : inst.spec.persistence.storage with
    | none => exact absurd hp hsome
    | some q =>
      simp only [Build, statefulSet, persistentVolumeClaim, hp, isCrash]
      rfl

set_option maxRecDepth 100000 in
theorem build_update_preconditions_witness :
    isCrash (Update demoInst (.other "configmap")) = true ∧
    (demoInst.spec.resources = none →
      isCrash (Update demoInst (.statefulSet demoSts)) = true) ∧
    (demoInst.spec.persistence.storage = none → isCrash (Build demoInst) = true) ∧
    (demoInst.spec.resources ≠ none →
      isCrash (Update demoInst (.statefulSet demoSts)) = false) ∧
    (demoInst.spec.persistence.storage ≠ none → isCrash (Build demoInst) = false) :=
  build_update_preconditions demoInst demoSts "configmap"
    [{ name := "demo", controller := true }] (by decide)

/-- C10. Every successful `Update` stamps the init container with the fixed
resource requirements parsed from the constants `initContainerCPU = "100m"`
and `initContainerMemory = "500Mi"` — requests equal to limits —
independent of the spec's resource requirements, which land only on the
main broker container. -/
theorem init_container_resources_fixed (inst : RabbitmqCluster)
    (sts s : StatefulSet) (w : List String)
    (h : Update inst (.statefulSet sts) = .ok s w) :
    s.spec.template.spec.initContainers.map (fun c => c.resources) =
      [initContainerResources] ∧
    initContainerResources.requests = initContainerResources.limits ∧
    ParseQuantity initContainerCPU = .ok cpu100m ∧
    ParseQuantity initContainerMemory = .ok mem500Mi ∧
    initContainerResources =
      { limits := [("cpu", cpu100m), ("memory", mem500Mi)],
        requests := [("cpu", cpu100m), ("memory", mem500Mi)] } ∧
    (∀ res, inst.spec.resources = some res →
      s.spec.template.spec.containers.map (fun c => c.resources) = [res]) := by
  simp only [Update] at h
  rw [updateFn_eq] at h
  cases hf : SetControllerReference inst.name sts.meta.ownerRefs with
  | error msg =>
    rw [hf] at h
    exact absurd h (by simp)
  | ok refs =>
    rw [hf] at h
    cases hr : inst.spec.resources with
    | none =>
      rw [hr] at h
      exact absurd h (by simp)
    | some res =>
      rw [hr] at h
      injection h with e1 ew
      subst e1
      refine ⟨rfl, rfl, rfl, rfl, rfl, ?_⟩
      intro res' hres'
      injection hres' with e2
      subst e2
      rfl

set_option maxRecDepth 100000 in
theorem init_container_resources_fixed_witness :
    demoS1.spec.template.spec.initContainers.map (fun c => c.resources) =
      [initContainerResources] :=
  (init_container_resources_fixed demoInst demoSts demoS1 demoW1 (by decide)).1

end ClusterOperator
